import Mathlib

/-!
Verification of the cumulative-progress / linear-projection core of the
Housing-Dashboard repository (src/app.py), as a shallow embedding.

Modelling conventions:
* A row of the loaded table after the numeric fill at src/app.py line 35
  is a `RawRecord`; unit-count columns are non-negative integers (`Nat`),
  and the parsed completion year (pd.to_numeric on the Expected finish
  column, line 58) is `Option Int` - `none` for an unparseable value.
* pandas column arithmetic becomes `List` functions; a DataFrame column is
  a `List` in row order.
* Floating-point arithmetic of the projection engine is embedded as exact
  rational arithmetic (`ℚ`).
* Fallible steps (taking the minimum of an empty year series, line 73)
  return `Except`.
-/

namespace HousingDashboard

/-- One row of the source table after the fill of missing numeric cells
with 0 (src/app.py line 35).  Fields mirror the columns used by the core:
Market Rate Rentals, Affordable Rentals, Market Rate Owner, Affordable
Owner, Total units, and the completion year parsed from Expected finish
(line 58, unparseable values coerced to `none`). -/
structure RawRecord where
  marketRateRentals : Nat
  affordableRentals : Nat
  marketRateOwner : Nat
  affordableOwner : Nat
  totalUnits : Nat
  expectedFinish : Option Int
deriving DecidableEq

/-- src/app.py line 49: Rental Units = Market Rate Rentals + Affordable Rentals. -/
def rental_units (r : RawRecord) : Nat := r.marketRateRentals + r.affordableRentals

/-- src/app.py line 50: Owner Units = Market Rate Owner + Affordable Owner. -/
def owner_units (r : RawRecord) : Nat := r.marketRateOwner + r.affordableOwner

/-- src/app.py line 53: Affordable Units = Affordable Rentals + Affordable Owner. -/
def affordable_units (r : RawRecord) : Nat := r.affordableRentals + r.affordableOwner

/-- src/app.py line 54: Market Rate Units = Market Rate Rentals + Market Rate Owner. -/
def market_rate_units (r : RawRecord) : Nat := r.marketRateRentals + r.marketRateOwner

/-- src/app.py line 67: the Total units column (used unchanged by the aggregation). -/
def total_units (r : RawRecord) : Nat := r.totalUnits

/-- src/app.py lines 58-61: the Move-in Year column of df_valid, i.e. the
parseable completion years of the records, in row order. -/
def move_in_years (rs : List RawRecord) : List Int :=
  rs.filterMap RawRecord.expectedFinish

/-- Minimum of a series, `none` for the empty series (pandas Series.min
yields NaN there, and int(NaN) at src/app.py line 73 raises). -/
def listMin : List Int → Option Int
  | [] => none
  | x :: xs => some (xs.foldl min x)

/-- Maximum of a series, `none` for the empty series. -/
def listMax : List Int → Option Int
  | [] => none
  | x :: xs => some (xs.foldl max x)

/-- Python `list(range(lo, hi + 1))` on integers: the contiguous integers
from `lo` to `hi` inclusive (empty when `lo > hi`). -/
def intRange (lo hi : Int) : List Int :=
  (List.range (hi + 1 - lo).toNat).map (fun (i : Nat) => lo + (i : Int))

/-- src/app.py line 38. -/
def RENTAL_GOAL : Int := 2700

/-- src/app.py line 39. -/
def OWNER_GOAL : Int := 220

/-- src/app.py line 40. -/
def TOTAL_GOAL : Int := RENTAL_GOAL + OWNER_GOAL

/-- src/app.py line 41. -/
def TARGET_YEAR : Int := 2030

/-- Failure of the year aggregation: no record carries a parseable
completion year, so the min() of the year series at src/app.py line 73 is
taken over an empty series (NaN) and int(NaN) raises.  The spec calls this
failure EmptySeriesError. -/
inductive AggError where
  | emptySeries
deriving DecidableEq

/-- src/app.py line 73: all_years = list(range(int(min of Move-in Year),
TARGET_YEAR + 1)).  Fails when no record has a parseable year. -/
def all_years (rs : List RawRecord) : Except AggError (List Int) :=
  match listMin (move_in_years rs) with
  | none => Except.error AggError.emptySeries
  | some lo => Except.ok (intRange lo TARGET_YEAR)

/-- src/app.py lines 64-70: the per-year groupby sum of column `f` over the
records whose parsed completion year equals `y` (0 when no record matches,
which is also what the left-merge fillna at line 77 produces for a filler
year). -/
def yearly_sum (rs : List RawRecord) (f : RawRecord → Nat) (y : Int) : Nat :=
  ((rs.filter (fun r => r.expectedFinish = some y)).map f).sum

/-- src/app.py lines 64-70: the index of yearly_data - the distinct parsed
completion years in increasing order (pandas groupby sorts its keys).
Represented as the integers between the observed min and max that occur in
the Move-in Year series. -/
def yearly_data_years (rs : List RawRecord) : List Int :=
  match move_in_years rs with
  | [] => []
  | y :: ys =>
    (intRange (ys.foldl min y) (ys.foldl max y)).filter
      (fun z => decide (z ∈ move_in_years rs))

/-- Running prefix sums with accumulator `acc` (pandas Series.cumsum). -/
def cumsumFrom (acc : Nat) : List Nat → List Nat
  | [] => []
  | x :: xs => (acc + x) :: cumsumFrom (acc + x) xs

/-- pandas Series.cumsum (src/app.py lines 80-84 and 158/236). -/
def cumsum (l : List Nat) : List Nat := cumsumFrom 0 l

/-- src/app.py line 77: a units-added column of yearly_complete over the
regularized year axis - the groupby sum at each axis year, 0 for filler
years (left merge + fillna). -/
def added_col (rs : List RawRecord) (f : RawRecord → Nat) (axis : List Int) : List Nat :=
  axis.map (yearly_sum rs f)

/-- src/app.py lines 80-84: a cumulative column of yearly_complete. -/
def cumulative_col (rs : List RawRecord) (f : RawRecord → Nat) (axis : List Int) : List Nat :=
  cumsum (added_col rs f axis)

/-! The trend projection engine (src/app.py lines 156-168, 234-246,
288-298).  np.polyfit of degree 1 is ordinary least squares; over at least
two distinct x values its unique solution is given by the normal
equations, embedded here over exact rationals. -/

/-- np.polyfit(xs, ys, 1): the (slope, intercept) pair of the degree-1
least-squares fit through the points zip xs ys. -/
def polyfit1 (xs : List Int) (ys : List Nat) : ℚ × ℚ :=
  let n : ℚ := (xs.length : ℚ)
  let sx : ℚ := (xs.map (fun (x : Int) => (x : ℚ))).sum
  let sy : ℚ := (ys.map (fun (y : Nat) => (y : ℚ))).sum
  let sxx : ℚ := (xs.map (fun (x : Int) => (x : ℚ) * (x : ℚ))).sum
  let sxy : ℚ := ((xs.zip ys).map (fun p => (p.1 : ℚ) * (p.2 : ℚ))).sum
  let slope : ℚ := (n * sxy - sx * sy) / (n * sxx - sx * sx)
  (slope, (sy - slope * sx) / n)

/-- np.poly1d evaluation of a degree-1 coefficient pair at x. -/
def poly1d_eval (c : ℚ × ℚ) (x : ℚ) : ℚ := c.1 * x + c.2

/-- src/app.py line 157 (resp. 235): the x data of the fit - the years of
yearly_data, i.e. the distinct observed completion years. -/
def fit_years (rs : List RawRecord) : List Int := yearly_data_years rs

/-- src/app.py line 158 (resp. 236): the y data of the fit - the running
cumsum of the per-observed-year groupby sums of column f, taken over
yearly_data only (not over the regularized yearly_complete axis). -/
def fit_cum (rs : List RawRecord) (f : RawRecord → Nat) : List Nat :=
  cumsum ((yearly_data_years rs).map (yearly_sum rs f))

/-- The two projection columns that src/app.py lines 288-298 append to the
deficit table, in exact arithmetic (the int() truncation at lines 297-298
is presentation only). -/
structure ProjectedCols where
  rentalProjected : ℚ
  ownerProjected : ℚ
  totalProjected : ℚ
  rentalProjDeficit : ℚ
  ownerProjDeficit : ℚ
  totalProjDeficit : ℚ
deriving DecidableEq

/-- src/app.py line 290: rental_projected = rental_poly1d(TARGET_YEAR),
the fitted rental trend evaluated at the target year (rental_poly1d is
always bound when this runs, since lines 156-162 share the guard of line
288, so the locals() fallback is dead). -/
def rental_projected (rs : List RawRecord) : ℚ :=
  poly1d_eval (polyfit1 (fit_years rs) (fit_cum rs rental_units)) ((TARGET_YEAR : ℤ) : ℚ)

/-- src/app.py line 291: owner_projected = owner_poly1d(TARGET_YEAR). -/
def owner_projected (rs : List RawRecord) : ℚ :=
  poly1d_eval (polyfit1 (fit_years rs) (fit_cum rs owner_units)) ((TARGET_YEAR : ℤ) : ℚ)

/-- src/app.py lines 288-298: the projection columns of the deficit table.
They are produced only under the guard len(yearly_data) >= 2 (at least two
distinct observed completion years); otherwise the table carries no
projection columns at all. -/
def projected_cols (rs : List RawRecord) : Option ProjectedCols :=
  if 2 ≤ (yearly_data_years rs).length then
    some
      { rentalProjected := rental_projected rs
        ownerProjected := owner_projected rs
        totalProjected := rental_projected rs + owner_projected rs
        rentalProjDeficit := max 0 ((RENTAL_GOAL : ℚ) - rental_projected rs)
        ownerProjDeficit := max 0 ((OWNER_GOAL : ℚ) - owner_projected rs)
        totalProjDeficit :=
          max 0 ((RENTAL_GOAL : ℚ) - rental_projected rs) +
            max 0 ((OWNER_GOAL : ℚ) - owner_projected rs) }
  else none

/-! Current progress metrics (src/app.py lines 87-95 and 112). -/

/-- src/app.py lines 87-90: the last entry of a cumulative column of
yearly_complete (0 when the frame is empty). -/
def current_of (rs : List RawRecord) (f : RawRecord → Nat) (axis : List Int) : Nat :=
  (cumulative_col rs f axis).getLastD 0

/-- src/app.py line 112: the affordable share of all planned units, with
the division guarded by the positivity check on the denominator. -/
def affordable_percent (a m : Nat) : ℚ :=
  if 0 < a + m then ((a : ℚ) / ((a : ℚ) + (m : ℚ))) * 100 else 0

/-! Units needed per remaining year (src/app.py lines 304-312). -/

/-- src/app.py line 304 (CURRENT_YEAR is datetime.now().year, a runtime
parameter here). -/
def years_remaining (currentYear : Int) : Int := TARGET_YEAR - currentYear

/-- src/app.py lines 305-307: the per-year rate is computed only under the
guard years_remaining > 0; otherwise the info block is skipped, so no
value (and no division) is produced. -/
def per_year_rate (currentYear : Int) (deficit : ℚ) : Option ℚ :=
  if 0 < years_remaining currentYear then
    some (deficit / ((years_remaining currentYear : ℤ) : ℚ))
  else none

/-! The data-loading cache (src/app.py lines 19-34).  st.cache_data with
ttl=60 memoizes a fetch for 60 seconds; its step semantics on a fetch
counter is modelled below.  Times are in seconds. -/

/-- State of the loader: when the cache entry was written (none if cold),
and how many real fetches of the CSV have happened. -/
structure FetchState where
  cachedAt : Option Nat
  fetchCount : Nat
deriving DecidableEq

/-- One call of a function wrapped by st.cache_data(ttl := 60 seconds): a
call within ttl of the cached entry is served from the cache, otherwise
the source is refetched. -/
def cache_data_load (ttl now : Nat) (s : FetchState) : FetchState :=
  match s.cachedAt with
  | some t => if now < t + ttl then s else { cachedAt := some now, fetchCount := s.fetchCount + 1 }
  | none => { cachedAt := some now, fetchCount := s.fetchCount + 1 }

/-- One call of an unwrapped loader: every call fetches. -/
def plain_load (_now : Nat) (s : FetchState) : FetchState :=
  { s with fetchCount := s.fetchCount + 1 }

/-- src/app.py lines 19-34: the st.cache_data decorator at line 19 is
applied to the first def of load_data (line 25), but the second def at
line 30 immediately rebinds the module name load_data to a plain
undecorated function, and the call at line 34 uses that rebinding.  The
load_data actually in effect is therefore the uncached loader. -/
def load_data : Nat → FetchState → FetchState := plain_load

/-- The loader state before the first call. -/
def initialFetchState : FetchState := { cachedAt := none, fetchCount := 0 }

/-! Concrete example inputs used by counterexamples and witnesses. -/

/-- A record with the given Market Rate Rentals, Affordable Rentals,
Market Rate Owner, Affordable Owner, Total units and parsed year. -/
def mkRec (mrr ar mro ao tot : Nat) (y : Option Int) : RawRecord :=
  { marketRateRentals := mrr, affordableRentals := ar, marketRateOwner := mro,
    affordableOwner := ao, totalUnits := tot, expectedFinish := y }

/-- The spec's worked example: 10 rental units completing in 2022 and 20
rental units completing in 2024 (gap year 2023 unobserved). -/
def exC1 : List RawRecord := [mkRec 10 0 0 0 10 (some 2022), mkRec 20 0 0 0 20 (some 2024)]

/-- 2000 rental units in each of 2020 and 2021 and no owner units: the
rental trend overshoots its goal while the owner trend is flat. -/
def exC2 : List RawRecord := [mkRec 2000 0 0 0 2000 (some 2020), mkRec 2000 0 0 0 2000 (some 2021)]

/-- A single record whose completion year is unparseable. -/
def exC3 : List RawRecord := [mkRec 5 0 0 0 5 none]

/-- A single record with one observed year: the fit is underdetermined. -/
def exC4 : List RawRecord := [mkRec 10 0 0 0 10 (some 2022)]

/-- The year axis produced for exC4. -/
def axisC4 : List Int := [2022, 2023, 2024, 2025, 2026, 2027, 2028, 2029, 2030]

/-- Two records sharing one observed year: still underdetermined. -/
def exC4w : List RawRecord := [mkRec 10 0 0 0 10 (some 2022), mkRec 5 0 0 0 5 (some 2022)]

/-- A single record whose observed year 2035 lies beyond TARGET_YEAR. -/
def exC6 : List RawRecord := [mkRec 0 0 0 0 0 (some 2035)]

/-- A single record completing in 2028. -/
def exC6w : List RawRecord := [mkRec 0 0 0 0 0 (some 2028)]

/-- The year axis produced for exC6w. -/
def axisC6w : List Int := [2028, 2029, 2030]

/-- Records for the conservation witness: years 2025 and 2027. -/
def exC7w : List RawRecord := [mkRec 3 1 2 0 6 (some 2025), mkRec 0 4 0 5 9 (some 2027)]

/-- The year axis produced for exC7w. -/
def axisC7w : List Int := [2025, 2026, 2027, 2028, 2029, 2030]

/-- Records for the monotonicity witness: years 2026 and 2029. -/
def exC8w : List RawRecord := [mkRec 1 2 3 4 10 (some 2026), mkRec 5 0 0 6 11 (some 2029)]

/-- The year axis produced for exC8w. -/
def axisC8w : List Int := [2026, 2027, 2028, 2029, 2030]

/-- A record with a parseable year but no units at all. -/
def exC10w : List RawRecord := [mkRec 0 0 0 0 0 (some 2029)]

/-- The year axis produced for exC10w. -/
def axisC10w : List Int := [2029, 2030]

/-- The projection columns produced for exC2: the rental fit runs through
(2020, 2000) and (2021, 4000), so slope 2000 and value 22000 at 2030; the
owner fit is identically 0. -/
def cC2 : ProjectedCols :=
  { rentalProjected := 22000, ownerProjected := 0, totalProjected := 22000,
    rentalProjDeficit := 0, ownerProjDeficit := 220, totalProjDeficit := 220 }

/-! Helper lemmas about the aggregation primitives. -/

theorem foldl_min_le_init (l : List Int) : ∀ a : Int, l.foldl min a ≤ a := by
  induction l with
  | nil => intro a; exact le_refl a
  | cons x xs ih =>
    intro a
    exact le_trans (ih (min a x)) (min_le_left a x)

theorem foldl_min_le_of_mem (l : List Int) :
    ∀ a y : Int, y ∈ a :: l → l.foldl min a ≤ y := by
  induction l with
  | nil =>
    intro a y hy
    rcases List.mem_cons.mp hy with rfl | h
    · exact le_refl y
    · simp at h
  | cons x xs ih =>
    intro a y hy
    show xs.foldl min (min a x) ≤ y
    rcases List.mem_cons.mp hy with rfl | h
    · exact le_trans (foldl_min_le_init xs (min y x)) (min_le_left y x)
    · rcases List.mem_cons.mp h with rfl | h'
      · exact le_trans (foldl_min_le_init xs (min a y)) (min_le_right a y)
      · exact ih (min a x) y (List.mem_cons_of_mem _ h')

theorem le_foldl_max_init (l : List Int) : ∀ a : Int, a ≤ l.foldl max a := by
  induction l with
  | nil => intro a; exact le_refl a
  | cons x xs ih =>
    intro a
    exact le_trans (le_max_left a x) (ih (max a x))

theorem le_foldl_max_of_mem (l : List Int) :
    ∀ a y : Int, y ∈ a :: l → y ≤ l.foldl max a := by
  induction l with
  | nil =>
    intro a y hy
    rcases List.mem_cons.mp hy with rfl | h
    · exact le_refl y
    · simp at h
  | cons x xs ih =>
    intro a y hy
    show y ≤ xs.foldl max (max a x)
    rcases List.mem_cons.mp hy with rfl | h
    · exact le_trans (le_max_left y x) (le_foldl_max_init xs (max y x))
    · rcases List.mem_cons.mp h with rfl | h'
      · exact le_trans (le_max_right a y) (le_foldl_max_init xs (max a y))
      · exact ih (max a x) y (List.mem_cons_of_mem _ h')

theorem mem_intRange {lo hi y : Int} : y ∈ intRange lo hi ↔ lo ≤ y ∧ y ≤ hi := by
  unfold intRange
  simp only [List.mem_map, List.mem_range]
  constructor
  · rintro ⟨i, hik, rfl⟩
    exact ⟨by omega, by omega⟩
  · rintro ⟨h1, h2⟩
    exact ⟨(y - lo).toNat, by omega, by omega⟩

theorem length_intRange (lo hi : Int) : (intRange lo hi).length = (hi + 1 - lo).toNat := by
  rw [intRange, List.length_map, List.length_range]

theorem pairwise_intRange (lo hi : Int) : (intRange lo hi).Pairwise (· < ·) := by
  unfold intRange
  exact List.Pairwise.map _ (fun a b hab => by omega) (List.pairwise_lt_range _)

theorem mem_yearly_data_years {rs : List RawRecord} {y : Int} :
    y ∈ yearly_data_years rs ↔ y ∈ move_in_years rs := by
  unfold yearly_data_years
  cases hp : move_in_years rs with
  | nil => simp
  | cons a tl =>
    simp only [List.mem_filter, decide_eq_true_eq, hp]
    constructor
    · exact fun h => h.2
    · intro h
      refine ⟨mem_intRange.mpr ⟨?_, ?_⟩, h⟩
      · exact foldl_min_le_of_mem tl a y h
      · exact le_foldl_max_of_mem tl a y h

theorem pairwise_yearly_data_years (rs : List RawRecord) :
    (yearly_data_years rs).Pairwise (· < ·) := by
  unfold yearly_data_years
  cases move_in_years rs with
  | nil => simp
  | cons a tl =>
    exact (pairwise_intRange _ _).sublist (List.filter_sublist _)

theorem cumsumFrom_getLastD (l : List Nat) :
    ∀ acc : Nat, (cumsumFrom acc l).getLastD acc = acc + l.sum := by
  induction l with
  | nil => intro acc; simp [cumsumFrom]
  | cons x xs ih =>
    intro acc
    rw [cumsumFrom, List.getLastD_cons, ih (acc + x)]
    simp [List.sum_cons]
    omega

theorem cumsumFrom_head_le (l : List Nat) (acc : Nat) :
    ∀ x ∈ (cumsumFrom acc l).head?, acc ≤ x := by
  cases l with
  | nil => simp [cumsumFrom]
  | cons y ys =>
    intro x hx
    simp only [cumsumFrom, List.head?_cons, Option.mem_def, Option.some.injEq] at hx
    omega

theorem cumsumFrom_chain (l : List Nat) :
    ∀ acc : Nat, List.Chain' (· ≤ ·) (cumsumFrom acc l) := by
  induction l with
  | nil => intro acc; simp [cumsumFrom]
  | cons x xs ih =>
    intro acc
    rw [cumsumFrom, List.chain'_cons']
    exact ⟨cumsumFrom_head_le xs (acc + x), ih (acc + x)⟩

theorem cumsum_getLastD (l : List Nat) : (cumsum l).getLastD 0 = l.sum := by
  simpa using cumsumFrom_getLastD l 0

theorem cumsum_chain (l : List Nat) : List.Chain' (· ≤ ·) (cumsum l) :=
  cumsumFrom_chain l 0

theorem cumsumFrom_length (l : List Nat) :
    ∀ acc : Nat, (cumsumFrom acc l).length = l.length := by
  induction l with
  | nil => intro acc; rfl
  | cons x xs ih => intro acc; simp [cumsumFrom, ih]

/-! Claim theorems. -/

/-- C3: if no input record has a parseable completion year (the parsed
Move-in Year series is empty), the aggregation fails with the explicit
empty-series error - and it fails this way exactly in that case, so a
nonempty series never silently yields a degenerate or error result. -/
theorem allYears_error_iff_no_parseable_year (rs : List RawRecord) :
    all_years rs = Except.error AggError.emptySeries ↔ move_in_years rs = [] := by
  unfold all_years
  cases hp : move_in_years rs with
  | nil => simp [listMin]
  | cons a tl => simp [listMin]

/-- C3 witness: a single record with an unparseable year makes the
aggregation fail with the empty-series error. -/
theorem allYears_error_iff_no_parseable_year_witness :
    all_years exC3 = Except.error AggError.emptySeries :=
  (allYears_error_iff_no_parseable_year exC3).mpr (by rfl)

/-- C5 (code bug): the load_data binding actually used by src/app.py line
34 is the undecorated second def (line 30), so two loads 30 seconds apart
perform two fetches, whereas the st.cache_data(ttl=60) semantics the
decorator at line 19 was meant to attach would perform one. -/
theorem load_data_refetches_within_ttl :
    (load_data 30 (load_data 0 initialFetchState)).fetchCount = 2 ∧
    (cache_data_load 60 30 (cache_data_load 60 0 initialFetchState)).fetchCount = 1 :=
  ⟨rfl, rfl⟩

/-- C6 (amended): for every input with at least one parseable completion
year, the regularized year axis holds exactly the integers between the
minimum observed year and TARGET_YEAR inclusive, and - provided the
minimum observed year does not exceed TARGET_YEAR - its length is
TARGET_YEAR - min + 1 (when the minimum exceeds TARGET_YEAR the axis is
empty). -/
theorem year_axis_contiguous_and_length (rs : List RawRecord) (lo : Int) (axis : List Int)
    (h1 : listMin (move_in_years rs) = some lo) (h2 : all_years rs = Except.ok axis) :
    (∀ y : Int, y ∈ axis ↔ lo ≤ y ∧ y ≤ TARGET_YEAR) ∧
    (lo ≤ TARGET_YEAR → (axis.length : ℤ) = TARGET_YEAR - lo + 1) := by
  unfold all_years at h2
  rw [h1] at h2
  injection h2 with h2
  subst h2
  constructor
  · intro y
    exact mem_intRange
  · intro hle
    rw [length_intRange]
    omega

/-- C6 witness: a single record completing in 2028 yields the axis
2028..2030 of length 3. -/
theorem year_axis_contiguous_and_length_witness :
    ((2029 : ℤ) ∈ axisC6w ↔ 2028 ≤ (2029 : ℤ) ∧ (2029 : ℤ) ≤ TARGET_YEAR) ∧
    ((axisC6w.length : ℤ) = TARGET_YEAR - 2028 + 1) := by
  have h := year_axis_contiguous_and_length exC6w 2028 axisC6w (by rfl) (by rfl)
  exact ⟨h.1 2029, h.2 (by decide)⟩

/-- C6 counterexample: for a single record completing in 2035 (past
TARGET_YEAR) the produced axis is empty, of length 0, while the claimed
length TARGET_YEAR - min + 1 is -4; the claim as stated is false here. -/
theorem year_axis_length_cex :
    all_years exC6 = Except.ok ([] : List Int) ∧
    ¬ ((([] : List Int).length : ℤ) = TARGET_YEAR - 2035 + 1) :=
  ⟨rfl, by decide⟩

/-- C7: for every category, the cumulative-units value at the last bucket
of the regularized sequence equals the sum of units-added across all
buckets. -/
theorem cumulative_last_eq_sum_of_added (rs : List RawRecord) (axis : List Int)
    (_h : all_years rs = Except.ok axis) :
    (cumulative_col rs rental_units axis).getLastD 0 = (added_col rs rental_units axis).sum ∧
    (cumulative_col rs owner_units axis).getLastD 0 = (added_col rs owner_units axis).sum ∧
    (cumulative_col rs total_units axis).getLastD 0 = (added_col rs total_units axis).sum ∧
    (cumulative_col rs affordable_units axis).getLastD 0 =
      (added_col rs affordable_units axis).sum ∧
    (cumulative_col rs market_rate_units axis).getLastD 0 =
      (added_col rs market_rate_units axis).sum :=
  ⟨cumsum_getLastD _, cumsum_getLastD _, cumsum_getLastD _, cumsum_getLastD _,
    cumsum_getLastD _⟩

/-- C7 witness at a concrete two-record input over the axis 2025..2030. -/
theorem cumulative_last_eq_sum_of_added_witness :
    (cumulative_col exC7w rental_units axisC7w).getLastD 0 =
      (added_col exC7w rental_units axisC7w).sum ∧
    (cumulative_col exC7w owner_units axisC7w).getLastD 0 =
      (added_col exC7w owner_units axisC7w).sum ∧
    (cumulative_col exC7w total_units axisC7w).getLastD 0 =
      (added_col exC7w total_units axisC7w).sum ∧
    (cumulative_col exC7w affordable_units axisC7w).getLastD 0 =
      (added_col exC7w affordable_units axisC7w).sum ∧
    (cumulative_col exC7w market_rate_units axisC7w).getLastD 0 =
      (added_col exC7w market_rate_units axisC7w).sum :=
  cumulative_last_eq_sum_of_added exC7w axisC7w (by rfl)

/-- C8: for every category, the cumulative-units sequence over the
regularized year axis is monotonically non-decreasing. -/
theorem cumulative_monotone (rs : List RawRecord) (axis : List Int)
    (_h : all_years rs = Except.ok axis) :
    List.Chain' (· ≤ ·) (cumulative_col rs rental_units axis) ∧
    List.Chain' (· ≤ ·) (cumulative_col rs owner_units axis) ∧
    List.Chain' (· ≤ ·) (cumulative_col rs total_units axis) ∧
    List.Chain' (· ≤ ·) (cumulative_col rs affordable_units axis) ∧
    List.Chain' (· ≤ ·) (cumulative_col rs market_rate_units axis) :=
  ⟨cumsum_chain _, cumsum_chain _, cumsum_chain _, cumsum_chain _, cumsum_chain _⟩

/-- C8 witness at a concrete two-record input over the axis 2026..2030. -/
theorem cumulative_monotone_witness :
    List.Chain' (· ≤ ·) (cumulative_col exC8w rental_units axisC8w) ∧
    List.Chain' (· ≤ ·) (cumulative_col exC8w owner_units axisC8w) ∧
    List.Chain' (· ≤ ·) (cumulative_col exC8w total_units axisC8w) ∧
    List.Chain' (· ≤ ·) (cumulative_col exC8w affordable_units axisC8w) ∧
    List.Chain' (· ≤ ·) (cumulative_col exC8w market_rate_units axisC8w) :=
  cumulative_monotone exC8w axisC8w (by rfl)

/-- C9: the per-remaining-year rate is the division deficit /
(TARGET_YEAR - current year) exactly when TARGET_YEAR is still in the
future; when TARGET_YEAR has passed the computation is skipped and no
value (and no division) is produced. -/
theorem per_year_rate_iff_horizon_future (currentYear : Int) (deficit : ℚ) :
    (currentYear < TARGET_YEAR →
      per_year_rate currentYear deficit =
        some (deficit / ((TARGET_YEAR - currentYear : ℤ) : ℚ))) ∧
    (TARGET_YEAR ≤ currentYear → per_year_rate currentYear deficit = none) := by
  unfold per_year_rate years_remaining
  constructor
  · intro h
    rw [if_pos (by omega)]
  · intro h
    rw [if_neg (by omega)]

/-- C9 witness: in 2025 a deficit of 5 amortizes to 1 unit per year; in
2031 the horizon has passed and no rate is produced. -/
theorem per_year_rate_iff_horizon_future_witness :
    per_year_rate 2025 5 = some (1 : ℚ) ∧ per_year_rate 2031 5 = none := by
  constructor
  · rw [(per_year_rate_iff_horizon_future 2025 5).1 (by decide)]
    norm_num [TARGET_YEAR]
  · exact (per_year_rate_iff_horizon_future 2031 5).2 (by decide)

/-- C10: when the sum of current affordable and current market-rate units
is zero, the affordable share is reported as 0 (the division branch is
not taken). -/
theorem affordable_percent_zero_when_no_units (rs : List RawRecord) (axis : List Int)
    (_h : all_years rs = Except.ok axis)
    (hz : current_of rs affordable_units axis + current_of rs market_rate_units axis = 0) :
    affordable_percent (current_of rs affordable_units axis)
      (current_of rs market_rate_units axis) = 0 := by
  unfold affordable_percent
  rw [if_neg (by omega)]

/-- C10 witness: a dataset whose only record carries no units yields an
affordable share of 0. -/
theorem affordable_percent_zero_when_no_units_witness :
    affordable_percent (current_of exC10w affordable_units axisC10w)
      (current_of exC10w market_rate_units axisC10w) = 0 :=
  affordable_percent_zero_when_no_units exC10w axisC10w (by rfl) (by rfl)

/-- C1 (amended): the least-squares fit of a category's cumulative series
uses exactly one (year, cumulative) point per distinct observed completion
year - a year contributes a point if and only if some record completes in
it, so interior zero-filled gap years as well as trailing filler years are
excluded - and the fit years are strictly increasing. -/
theorem rentalFit_points_are_observed_years (rs : List RawRecord) :
    (∀ y : Int, y ∈ fit_years rs ↔ y ∈ move_in_years rs) ∧
    (fit_years rs).Pairwise (· < ·) ∧
    (fit_cum rs rental_units).length = (fit_years rs).length := by
  refine ⟨fun y => mem_yearly_data_years, pairwise_yearly_data_years rs, ?_⟩
  unfold fit_cum fit_years cumsum
  rw [cumsumFrom_length, List.length_map]

/-- C1 witness: for the spec's worked example the gap year 2023 is not
among the fit years exactly because it is not an observed year. -/
theorem rentalFit_points_are_observed_years_witness :
    (((2023 : ℤ) ∈ fit_years exC1) ↔ ((2023 : ℤ) ∈ move_in_years exC1)) ∧
    (fit_years exC1).Pairwise (· < ·) ∧
    (fit_cum exC1 rental_units).length = (fit_years exC1).length := by
  have h := rentalFit_points_are_observed_years exC1
  exact ⟨h.1 2023, h.2.1, h.2.2⟩

/-- C1 counterexample: for the records 10 rental in 2022 and 20 rental in
2024, the claim says the rental fit is over the three points (2022,10),
(2023,10), (2024,30); the code fits over yearly_data, whose x data is
[2022, 2024] and y data [10, 30] - two points, the gap year 2023
excluded. -/
theorem rentalFit_gap_year_excluded_cex :
    fit_years exC1 = [2022, 2024] ∧
    fit_cum exC1 rental_units = [10, 30] ∧
    fit_years exC1 ≠ [2022, 2023, 2024] :=
  ⟨rfl, rfl, by decide⟩

/-- C4 (amended): for any input with fewer than 2 distinct observed
completion years (all parseable years coincide, or none exist), no trend
model is fitted and the deficit table carries no projection columns at
all - rather than projection columns populated with the current values. -/
theorem projected_cols_none_of_lt_two_distinct_years (rs : List RawRecord)
    (h : ∀ y₁ ∈ move_in_years rs, ∀ y₂ ∈ move_in_years rs, y₁ = y₂) :
    projected_cols rs = none := by
  have hlen : (yearly_data_years rs).length < 2 := by
    rcases hys : yearly_data_years rs with _ | ⟨a, tl⟩
    · simp
    · rcases htl : tl with _ | ⟨b, tl'⟩
      · simp
      · exfalso
        have hpw := pairwise_yearly_data_years rs
        rw [hys, htl] at hpw
        have hab : a < b := (List.pairwise_cons.mp hpw).1 b (List.mem_cons_self _ _)
        have ha : a ∈ move_in_years rs := by
          apply mem_yearly_data_years.mp
          rw [hys]
          exact List.mem_cons_self _ _
        have hb : b ∈ move_in_years rs := by
          apply mem_yearly_data_years.mp
          rw [hys, htl]
          exact List.mem_cons_of_mem _ (List.mem_cons_self _ _)
        exact absurd (h a ha b hb) (by omega)
  unfold projected_cols
  rw [if_neg (by omega)]

/-- C4 witness: two records completing in the same year still yield no
projection columns. -/
theorem projected_cols_none_of_lt_two_distinct_years_witness :
    projected_cols exC4w = none :=
  projected_cols_none_of_lt_two_distinct_years exC4w (by decide)

/-- C4 counterexample: for a single record of 10 rental units in 2022 the
claim says the projected cumulative equals the current cumulative (10) and
the projected deficit equals the current deficit; but the deficit table
has no projection columns at all for this input, so in particular no
projected cumulative equal to the current one is reported. -/
theorem projected_outputs_absent_cex :
    projected_cols exC4 = none ∧
    (projected_cols exC4).map ProjectedCols.rentalProjected ≠
      some ((current_of exC4 rental_units axisC4 : ℕ) : ℚ) := by
  refine ⟨rfl, ?_⟩
  intro hc
  rw [show projected_cols exC4 = none from rfl] at hc
  simp at hc

theorem max0_add_clamp_le (g1 g2 x y : ℚ) :
    max 0 (g1 + g2 - (x + y)) ≤ max 0 (g1 - x) + max 0 (g2 - y) := by
  apply max_le
  · exact add_nonneg (le_max_left _ _) (le_max_left _ _)
  · have h : g1 + g2 - (x + y) = (g1 - x) + (g2 - y) := by ring
    rw [h]
    exact add_le_add (le_max_right _ _) (le_max_right _ _)

theorem rental_projected_exC2 : rental_projected exC2 = 22000 := by
  have h1 : fit_years exC2 = [2020, 2021] := by rfl
  have h2 : fit_cum exC2 rental_units = [2000, 4000] := by rfl
  have h4 : polyfit1 [2020, 2021] [2000, 4000] = (2000, -4038000) := by
    norm_num [polyfit1, List.zip]
  unfold rental_projected
  rw [h1, h2, h4]
  norm_num [poly1d_eval, TARGET_YEAR]

theorem owner_projected_exC2 : owner_projected exC2 = 0 := by
  have h1 : fit_years exC2 = [2020, 2021] := by rfl
  have h3 : fit_cum exC2 owner_units = [0, 0] := by rfl
  have h5 : polyfit1 [2020, 2021] [0, 0] = (0, 0) := by
    norm_num [polyfit1, List.zip]
  unfold owner_projected
  rw [h1, h3, h5]
  norm_num [poly1d_eval]

theorem projected_cols_exC2 : projected_cols exC2 = some cC2 := by
  have hmr : max (0 : ℚ) ((RENTAL_GOAL : ℚ) - 22000) = 0 :=
    max_eq_left (by norm_num [RENTAL_GOAL])
  have hmo : max (0 : ℚ) ((OWNER_GOAL : ℚ) - 0) = 220 := by
    rw [max_eq_right (by norm_num [OWNER_GOAL])]
    norm_num [OWNER_GOAL]
  unfold projected_cols
  rw [if_pos (by decide), rental_projected_exC2, owner_projected_exC2, hmr, hmo]
  norm_num [cC2]

/-- C2 (amended): whenever the deficit table carries projection columns,
each category's projected deficit is the clamp max(0, goal - projected
value) and hence never negative; the combined projected value is the sum
of the two categories' projected values, but the combined projected
deficit is the sum of the two per-category clamped deficits - still never
negative, and at least as large as a single clamp on the combined goal
and combined projected value. -/
theorem projected_deficits_clamped_and_total_is_sum (rs : List RawRecord) (c : ProjectedCols)
    (h : projected_cols rs = some c) :
    c.rentalProjDeficit = max 0 ((RENTAL_GOAL : ℚ) - c.rentalProjected) ∧
    c.ownerProjDeficit = max 0 ((OWNER_GOAL : ℚ) - c.ownerProjected) ∧
    0 ≤ c.rentalProjDeficit ∧
    0 ≤ c.ownerProjDeficit ∧
    c.totalProjected = c.rentalProjected + c.ownerProjected ∧
    c.totalProjDeficit = c.rentalProjDeficit + c.ownerProjDeficit ∧
    0 ≤ c.totalProjDeficit ∧
    max 0 ((TOTAL_GOAL : ℚ) - c.totalProjected) ≤ c.totalProjDeficit := by
  unfold projected_cols at h
  by_cases hg : 2 ≤ (yearly_data_years rs).length
  · rw [if_pos hg] at h
    injection h with h
    subst h
    refine ⟨rfl, rfl, le_max_left _ _, le_max_left _ _, rfl, rfl,
      add_nonneg (le_max_left _ _) (le_max_left _ _), ?_⟩
    have hTG : ((TOTAL_GOAL : ℤ) : ℚ) = (RENTAL_GOAL : ℚ) + (OWNER_GOAL : ℚ) := by
      unfold TOTAL_GOAL
      push_cast
      ring
    dsimp only
    rw [hTG]
    exact max0_add_clamp_le _ _ _ _
  · rw [if_neg hg] at h
    exact Option.noConfusion h

/-- C2 witness: the amended statement instantiated at exC2, whose
projection columns are those of cC2. -/
theorem projected_deficits_clamped_and_total_is_sum_witness :
    cC2.rentalProjDeficit = max 0 ((RENTAL_GOAL : ℚ) - cC2.rentalProjected) ∧
    cC2.ownerProjDeficit = max 0 ((OWNER_GOAL : ℚ) - cC2.ownerProjected) ∧
    0 ≤ cC2.rentalProjDeficit ∧
    0 ≤ cC2.ownerProjDeficit ∧
    cC2.totalProjected = cC2.rentalProjected + cC2.ownerProjected ∧
    cC2.totalProjDeficit = cC2.rentalProjDeficit + cC2.ownerProjDeficit ∧
    0 ≤ cC2.totalProjDeficit ∧
    max 0 ((TOTAL_GOAL : ℚ) - cC2.totalProjected) ≤ cC2.totalProjDeficit :=
  projected_deficits_clamped_and_total_is_sum exC2 cC2 projected_cols_exC2

/-- C2 counterexample: at exC2 the rental trend overshoots its goal
(projected 22000 against 2700) while the owner trend stays at 0.  The
table's combined projected deficit is 220 - the sum of the per-category
clamps - whereas a single clamp on the combined goal and combined
projected value, as the claim states, would give max(0, 2920 - 22000) =
0.  The claim as stated is false here. -/
theorem totalProjectedDeficit_not_single_clamp_cex :
    (projected_cols exC2).map ProjectedCols.totalProjDeficit = some 220 ∧
    (projected_cols exC2).map (fun c => max 0 ((TOTAL_GOAL : ℚ) - c.totalProjected)) = some 0 ∧
    (220 : ℚ) ≠ 0 := by
  rw [projected_cols_exC2]
  refine ⟨rfl, ?_, by norm_num⟩
  have hm : max (0 : ℚ) ((TOTAL_GOAL : ℚ) - cC2.totalProjected) = 0 :=
    max_eq_left (by norm_num [TOTAL_GOAL, RENTAL_GOAL, OWNER_GOAL, cC2])
  show some (max 0 ((TOTAL_GOAL : ℚ) - cC2.totalProjected)) = some 0
  rw [hm]

end HousingDashboard
